import Mathlib

/-!
Verification of the novel ingestion and integrity-verification pipeline.

The development shallowly embeds the JavaScript sources as executable Lean
definitions over `List Char` (JS strings), `List Nat` (byte buffers), `Int`
(JS integer-valued numbers, with `Option Int` where `NaN` can arise) and
`ℚ` (JS floating-point values; all constants appearing in the code, such as
0.5, 1.5, 0.7 and 0.8, are modelled as exact rationals -- the claims under
check only exercise values far from the binary-representation gaps).

Embedded sources:
  - src/src/parser/chapter-splitter.js  (boundary classifier, numeral
    parser, chapter segmenter, chapter statistics)
  - src/unnamed/part_010                (text utilities: countWords)
  - src/src/scraper/downloader.js      (detectEncoding)
  - src/unnamed/part_005               (classic novel manager: statistical
    checker, word-count metadata parser, LLM check, fusion verifier)
-/

/-! ## JavaScript string primitives -/

/-- The ECMAScript white-space and line-terminator set, as used by
`String.trim` and by the regex class backslash-s. -/
def isJsWs (c : Char) : Bool :=
  c = ' ' || c = '\t' || c = '\n' || c = '\r' ||
  c = '\x0b' || c = '\x0c' ||
  c = '\u00A0' || c = '\u1680' ||
  ('\u2000' ≤ c && c ≤ '\u200A') ||
  c = '\u2028' || c = '\u2029' || c = '\u202F' || c = '\u205F' ||
  c = '\u3000' || c = '\uFEFF'

/-- ASCII decimal digit, the regex class backslash-d. -/
def isAsciiDigit (c : Char) : Bool := '0' ≤ c && c ≤ '9'

/-- The regex `.` metacharacter (without the dotAll flag): any character
except a line terminator. -/
def isRegexDot (c : Char) : Bool :=
  !(c = '\n' || c = '\r' || c = '\u2028' || c = '\u2029')

/-- A Lean string literal as the `List Char` it denotes (JS strings are
modelled as `List Char`; the characters involved all lie in the BMP, where
JS UTF-16 lengths agree with character counts). -/
def jsStr (s : String) : List Char := s.data

/-- JS `String.prototype.trim`. -/
def jsTrim (l : List Char) : List Char :=
  ((l.dropWhile isJsWs).reverse.dropWhile isJsWs).reverse

/-- JS `content.split('\n')` (splitting on a single-character separator
never produces the empty-input special case). -/
def splitNl : List Char → List (List Char)
  | [] => [[]]
  | c :: rest =>
    match splitNl rest with
    | [] => [[c]]
    | h :: t => if c = '\n' then [] :: h :: t else (c :: h) :: t

/-- JS `lines.join('\n')`. -/
def joinNl (ls : List (List Char)) : List Char :=
  List.intercalate ['\n'] ls

/-- `countWords` from src/unnamed/part_010: remove all white space and take
the length (CJK text counts one per character). -/
def countWords (l : List Char) : Nat :=
  (l.filter (fun c => !isJsWs c)).length

/-- JS `String.prototype.endsWith`. -/
def jsEndsWith (l s : List Char) : Bool :=
  decide (s.length ≤ l.length) && decide (l.drop (l.length - s.length) = s)

/-- JS `String.prototype.includes`. -/
def jsIncludes (l pat : List Char) : Bool :=
  (List.range (l.length + 1)).any (fun i => decide ((l.drop i).take pat.length = pat))

/-- Value of a non-empty ASCII digit run. -/
def digitsVal (ds : List Char) : Nat :=
  ds.foldl (fun acc c => 10 * acc + (c.toNat - '0'.toNat)) 0

/-- ASCII hexadecimal digit. -/
def isHexDigit (c : Char) : Bool :=
  isAsciiDigit c || ('a' ≤ c && c ≤ 'f') || ('A' ≤ c && c ≤ 'F')

/-- Value of a hexadecimal digit run. -/
def hexVal (ds : List Char) : Nat :=
  ds.foldl (fun acc c =>
    16 * acc +
      (if isAsciiDigit c then c.toNat - '0'.toNat
       else if 'a' ≤ c then c.toNat - 'a'.toNat + 10
       else c.toNat - 'A'.toNat + 10)) 0

/-- JS `parseInt(str)` with no radix argument: skip leading white space,
optional sign, `0x` introduces hexadecimal, else a leading decimal digit
run; `none` models `NaN`.  (JS loses precision above 2^53; the inputs this
program feeds it are far below that.) -/
def jsParseIntCore (sign : Int) (body : List Char) : Option Int :=
  match body with
  | '0' :: x :: r =>
    if x = 'x' || x = 'X' then
      if r.takeWhile isHexDigit = [] then none
      else some (sign * (hexVal (r.takeWhile isHexDigit) : Int))
    else
      if body.takeWhile isAsciiDigit = [] then none
      else some (sign * (digitsVal (body.takeWhile isAsciiDigit) : Int))
  | _ =>
    if body.takeWhile isAsciiDigit = [] then none
    else some (sign * (digitsVal (body.takeWhile isAsciiDigit) : Int))

/-- Sign handling of `parseInt`: leading white space is skipped and an
optional single sign character read before the digits. -/
def jsParseInt (str : List Char) : Option Int :=
  match str.dropWhile isJsWs with
  | '-' :: r => jsParseIntCore (-1) r
  | '+' :: r => jsParseIntCore 1 r
  | s => jsParseIntCore 1 s

/-! ## Chinese numeral parser (`chineseToNumber`, chapter-splitter.js) -/

/-- The digit/unit table of `chineseToNumber`. -/
def cnCharVal (c : Char) : Option Nat :=
  if c = '零' then some 0
  else if c = '一' then some 1
  else if c = '二' then some 2
  else if c = '三' then some 3
  else if c = '四' then some 4
  else if c = '五' then some 5
  else if c = '六' then some 6
  else if c = '七' then some 7
  else if c = '八' then some 8
  else if c = '九' then some 9
  else if c = '十' then some 10
  else if c = '百' then some 100
  else if c = '千' then some 1000
  else if c = '万' then some 10000
  else none

/-- One step of the right-to-left scan of `chineseToNumber`.  The state is
`(temp, result)`; unknown characters are skipped; a unit (value at least
10) folds the pending digit into `result` (a zero pending digit counts as
1); a plain digit overwrites `temp`. -/
def cnStep (p : Nat × Nat) (c : Char) : Nat × Nat :=
  match cnCharVal c with
  | none => p
  | some n =>
    if 10 ≤ n then (0, p.2 + (if p.1 = 0 then 1 else p.1) * n)
    else (n, p.2)

/-- `chineseToNumber` from chapter-splitter.js.  Empty input gives 0; a
pure ASCII digit string is read directly; otherwise the characters are
scanned right to left via `cnStep` and the leftover `temp` is added; a zero
outcome falls back to `parseInt(str)` and finally to 0
(`result || parseInt(str) || 0`).  `cnScan` is the loop together with
the final `result += temp`. -/
def cnScan (str : List Char) : Nat :=
  (str.reverse.foldl cnStep (0, 0)).2 + (str.reverse.foldl cnStep (0, 0)).1

/-- `chineseToNumber` continued: the scan outcome with the
`result || parseInt(str) || 0` fallback chain. -/
def chineseToNumber (str : List Char) : Int :=
  if str = [] then 0
  else if str.all isAsciiDigit then (digitsVal str : Int)
  else if cnScan str ≠ 0 then (cnScan str : Int)
  else
    match jsParseInt str with
    | some v => if v ≠ 0 then v else 0
    | none => 0

example : chineseToNumber (jsStr "十") = 10 := by decide
example : chineseToNumber (jsStr "二十三") = 32 := by decide
example : chineseToNumber (jsStr "一百零八") = 101 := by decide
example : chineseToNumber (jsStr "3") = 3 := by decide
example : chineseToNumber (jsStr "") = 0 := by decide

/-! ## Chapter boundary classifier (chapter-splitter.js)

The seven entries of `CHAPTER_PATTERNS`, embedded as decision procedures
over `List Char`.  Bounded regex quantifiers are decided by explicit
search over the split point (the exact existential semantics of regex
matching); where two adjacent character classes are disjoint, the greedy
run is unique and `takeWhile` is used directly. -/

/-- The class `[零一二三四五六七八九十百千万]`. -/
def isCnNumChar (c : Char) : Bool := (cnCharVal c).isSome

/-- The class `[零一二三四五六七八九十百千万\d]`. -/
def isCnNumOrDigit (c : Char) : Bool := isCnNumChar c || isAsciiDigit c

/-- The class `[章节回]`. -/
def isZJH (c : Char) : Bool := c = '章' || c = '节' || c = '回'

/-- The class `[章节回卷部集]`. -/
def isChapterUnit (c : Char) : Bool :=
  isZJH c || c = '卷' || c = '部' || c = '集'

/-- The class `[：:_·]`. -/
def isTitleSep (c : Char) : Bool :=
  c = '：' || c = ':' || c = '_' || c = '·'

/-- The class `[、.．]`. -/
def isEnumSep (c : Char) : Bool := c = '、' || c = '.' || c = '．'

/-- `.{lo,hi}$`: the remainder has between `lo` and `hi` non-line-break
characters. -/
def matchDotRange (lo hi : Nat) (r : List Char) : Bool :=
  decide (lo ≤ r.length) && decide (r.length ≤ hi) && r.all isRegexDot

/-- `\s*.{0,50}$`: some white-space run followed by at most 50
non-line-break characters. -/
def matchWsDot50 (r : List Char) : Bool :=
  (List.range (r.length + 1)).any fun j =>
    (r.take j).all isJsWs && matchDotRange 0 50 (r.drop j)

/-- `\s*[：:_·]?\s*.{0,50}$`, the tail of the standard pattern. -/
def matchPat1Tail (r : List Char) : Bool :=
  (List.range (r.length + 1)).any fun i =>
    (r.take i).all isJsWs &&
    (let r1 := r.drop i
     matchWsDot50 r1 ||
     (match r1 with
      | c :: r2 => isTitleSep c && matchWsDot50 r2
      | [] => false))

/-- Pattern 1: `^第[零一二三四五六七八九十百千万\d]+[章节回卷部集]\s*[：:_·]?\s*.{0,50}$`. -/
def matchPat1 (t : List Char) : Bool :=
  match t with
  | '第' :: rest =>
    (List.range rest.length).any fun k =>
      decide ((rest.take (k + 1)).length = k + 1) &&
      (rest.take (k + 1)).all isCnNumOrDigit &&
      (match rest.drop (k + 1) with
       | b :: r2 => isChapterUnit b && matchPat1Tail r2
       | [] => false)
  | _ => false

/-- Pattern 2: `^[【\[](第.{1,5}[章节回])[】\]].{0,50}$`. -/
def matchPat2 (t : List Char) : Bool :=
  match t with
  | b :: '第' :: rest =>
    (b = '【' || b = '[') &&
    ((List.range 5).any fun k =>
      decide (k + 1 ≤ rest.length) &&
      (rest.take (k + 1)).all isRegexDot &&
      (match rest.drop (k + 1) with
       | c :: cb :: r2 =>
         isZJH c && (cb = '】' || cb = ']') && matchDotRange 0 50 r2
       | _ => false))
  | _ => false

/-- Pattern 3: `^[\d]+[、.．].{1,50}$`. -/
def matchPat3 (t : List Char) : Bool :=
  (List.range t.length).any fun k =>
    decide ((t.take (k + 1)).length = k + 1) &&
    (t.take (k + 1)).all isAsciiDigit &&
    (match t.drop (k + 1) with
     | s :: r2 => isEnumSep s && matchDotRange 1 50 r2
     | [] => false)

/-- Pattern 4: `^[零一二三四五六七八九十百千万]+[、.．].{1,50}$`. -/
def matchPat4 (t : List Char) : Bool :=
  (List.range t.length).any fun k =>
    decide ((t.take (k + 1)).length = k + 1) &&
    (t.take (k + 1)).all isCnNumChar &&
    (match t.drop (k + 1) with
     | s :: r2 => isEnumSep s && matchDotRange 1 50 r2
     | [] => false)

/-- ASCII-only lower-casing, for the case-insensitive pattern 5 (the
pattern text is pure ASCII, so full Unicode canonicalisation is not
reachable). -/
def asciiLower (c : Char) : Char :=
  if 'A' ≤ c && c ≤ 'Z' then Char.ofNat (c.toNat + 32) else c

/-- Pattern 5: `^Chapter\s*\d+.*$` with the ignore-case flag. -/
def matchPat5 (t : List Char) : Bool :=
  decide ((t.take 7).map asciiLower = jsStr "chapter") &&
  (let r := t.drop 7
   (List.range (r.length + 1)).any fun i =>
     (r.take i).all isJsWs &&
     (let r1 := r.drop i
      (List.range r1.length).any fun k =>
        decide ((r1.take (k + 1)).length = k + 1) &&
        (r1.take (k + 1)).all isAsciiDigit &&
        (r1.drop (k + 1)).all isRegexDot))

/-- Pattern 6: `^[第][零一二三四五六七八九十百千万\d]+[卷部].{0,30}$`. -/
def matchPat6 (t : List Char) : Bool :=
  match t with
  | '第' :: rest =>
    (List.range rest.length).any fun k =>
      decide ((rest.take (k + 1)).length = k + 1) &&
      (rest.take (k + 1)).all isCnNumOrDigit &&
      (match rest.drop (k + 1) with
       | u :: r2 => (u = '卷' || u = '部') && matchDotRange 0 30 r2
       | [] => false)
  | _ => false

/-- Pattern 7: `^第[\d]+.{0,30}$`. -/
def matchPat7 (t : List Char) : Bool :=
  match t with
  | '第' :: rest =>
    (List.range rest.length).any fun k =>
      decide ((rest.take (k + 1)).length = k + 1) &&
      (rest.take (k + 1)).all isAsciiDigit &&
      matchDotRange 0 30 (rest.drop (k + 1))
  | _ => false

/-- `CHAPTER_PATTERNS.some(p => p.test(trimmed))`. -/
def matchesAnyChapterPattern (t : List Char) : Bool :=
  matchPat1 t || matchPat2 t || matchPat3 t || matchPat4 t ||
  matchPat5 t || matchPat6 t || matchPat7 t

/-- `isChapterTitle` from chapter-splitter.js: empty and blank lines are
not titles, a line whose trimmed form exceeds 60 characters is not a
title, otherwise the fixed pattern list decides. -/
def isChapterTitle (line : List Char) : Bool :=
  if (jsTrim line).length = 0 then false
  else
    let trimmed := jsTrim line
    if 60 < trimmed.length then false
    else matchesAnyChapterPattern trimmed

/-- The number-extraction search `/第([零一二三四五六七八九十百千万\d]+)[章节回]/`:
scan left to right for a `第` followed by a non-empty numeral run whose
next character is one of `章节回`, returning the captured run.  (The
numeral class and `[章节回]` are disjoint, so the greedy run is the unique
candidate at each start position.) -/
def findNumFragment : List Char → Option (List Char)
  | [] => none
  | c :: rest =>
    if c = '第' then
      match rest.dropWhile isCnNumOrDigit with
      | z :: _ =>
        if decide (rest.takeWhile isCnNumOrDigit ≠ []) && isZJH z then
          some (rest.takeWhile isCnNumOrDigit)
        else findNumFragment rest
      | [] => findNumFragment rest
    else findNumFragment rest

/-- The `{number, title, raw}` record produced by `parseChapterTitle`. -/
structure TitleInfo where
  number : Option Int
  title : List Char
  raw : List Char
deriving DecidableEq

/-- The number extraction of `parseChapterTitle`: the `第…[章节回]`
capture run through `chineseToNumber`, else the leading digit run through
`parseInt`, else null. -/
def extractedNumber (trimmed : List Char) : Option Int :=
  match findNumFragment trimmed with
  | some run => some (chineseToNumber run)
  | none =>
    match trimmed.takeWhile isAsciiDigit with
    | [] => none
    | ds => some (digitsVal ds : Int)

/-- `parseChapterTitle` from chapter-splitter.js: `none` for non-title
lines; otherwise the extracted number together with the trimmed line as
both title and raw text. -/
def parseChapterTitle (line : List Char) : Option TitleInfo :=
  if isChapterTitle line then
    some ⟨extractedNumber (jsTrim line), jsTrim line, jsTrim line⟩
  else none

example : isChapterTitle (jsStr "第一章 初见") = true := by decide
example : isChapterTitle (jsStr "第零章") = true := by decide
example : isChapterTitle (jsStr "这是一行普通的正文内容而已") = false := by decide
example : isChapterTitle (jsStr "Chapter 12") = true := by decide
example : isChapterTitle (jsStr "【第三章】标题") = true := by decide
example : isChapterTitle (jsStr "12、开端") = true := by decide
example : parseChapterTitle (jsStr "第二十三章 试炼") =
    some ⟨some 32, jsStr "第二十三章 试炼", jsStr "第二十三章 试炼"⟩ := by decide
example : parseChapterTitle (jsStr "第零章") =
    some ⟨some 0, jsStr "第零章", jsStr "第零章"⟩ := by decide
example : parseChapterTitle (jsStr "12、开端") =
    some ⟨some 12, jsStr "12、开端", jsStr "12、开端"⟩ := by decide

/-! ## Chapter segmenter (`splitChapters`, chapter-splitter.js) -/

/-- A ChapterRecord: `{number, title, content, wordCount, lineCount}`. -/
structure Chapter where
  number : Int
  title : List Char
  content : List Char
  wordCount : Nat
  lineCount : Nat
deriving DecidableEq

/-- `chapterInfo.number || chapterCount`: JS `||` replaces a null, zero or
NaN extracted number by the synthetic boundary counter. -/
def chapterNumberOr (n : Option Int) (count : Nat) : Int :=
  match n with
  | some v => if v = 0 then (count : Int) else v
  | none => (count : Int)

/-- The flush step of the segmenter loop: an open chapter with at least
one accumulated line is emitted when `includeEmpty` is set or the joined,
trimmed content reaches `minChapterLength`; otherwise nothing is emitted. -/
def flushCur (minLen : Nat) (includeEmpty : Bool)
    (cur : Option (Int × List Char)) (acc : List (List Char)) : List Chapter :=
  match cur with
  | none => []
  | some (num, title) =>
    if 0 < acc.length then
      let text := jsTrim (joinNl acc)
      if includeEmpty || decide (minLen ≤ text.length) then
        [⟨num, title, text, countWords text, acc.length⟩]
      else []
    else []

/-- The line loop of `splitChapters`, as a recursion over the remaining
lines with the loop state (open chapter, accumulated lines, boundary
counter) as arguments.  Emitted chapters are produced in push order. -/
def splitGo (minLen : Nat) (includeEmpty : Bool)
    (cur : Option (Int × List Char)) (acc : List (List Char)) (count : Nat) :
    List (List Char) → List Chapter
  | [] => flushCur minLen includeEmpty cur acc
  | l :: ls =>
    match parseChapterTitle l with
    | some info =>
      flushCur minLen includeEmpty cur acc ++
        splitGo minLen includeEmpty
          (some (chapterNumberOr info.number (count + 1), info.title)) []
          (count + 1) ls
    | none =>
      match cur with
      | some c => splitGo minLen includeEmpty (some c) (acc ++ [l]) count ls
      | none => splitGo minLen includeEmpty none acc count ls

/-- `splitChapters(content, {minChapterLength, includeEmpty})` from
chapter-splitter.js (the source defaults are `minChapterLength = 100`,
`includeEmpty = false`). -/
def splitChapters (content : List Char) (minLen : Nat) (includeEmpty : Bool) :
    List Chapter :=
  splitGo minLen includeEmpty none [] 0 (splitNl content)

/-- The aggregate record returned by `getChapterStats`. -/
structure ChapterStats where
  total : Nat
  totalWords : Nat
  avgWords : Nat
  maxWords : Nat
  minWords : Nat
deriving DecidableEq

/-- `Math.round(a / b)` for natural `a` and positive natural `b`:
round-half-up, computed as `⌊(2a + b) / (2b)⌋`. -/
def jsRoundDiv (a b : Nat) : Nat := (2 * a + b) / (2 * b)

/-- `getChapterStats` from chapter-splitter.js: all-zero record for an
empty list, otherwise length, reduced sum, rounded mean, max and min of
the per-chapter word counts. -/
def getChapterStats (chapters : List Chapter) : ChapterStats :=
  match chapters with
  | [] => ⟨0, 0, 0, 0, 0⟩
  | c :: cs =>
    let wordCounts := (c :: cs).map Chapter.wordCount
    let sum := wordCounts.foldl (· + ·) 0
    ⟨(c :: cs).length, sum, jsRoundDiv sum (c :: cs).length,
     wordCounts.foldl Nat.max 0,
     (cs.map Chapter.wordCount).foldl Nat.min c.wordCount⟩

/-! ## Novel parser (`parseNovel`, novel-parser.js), pure core -/

/-- The fields of the `parseNovel` result that the integrity checker
consumes.  `totalWords` is the whitespace-free length of the whole
document (not the per-chapter sum). -/
structure NovelData where
  chapters : List Chapter
  chapterCount : Nat
  totalWords : Nat
  chapterStats : ChapterStats
deriving DecidableEq

/-- `parseNovel` from novel-parser.js restricted to its pure core: split
the decoded content into chapters with the default options and aggregate
the statistics. -/
def parseNovelPure (content : List Char) : NovelData :=
  let chapters := splitChapters content 100 false
  ⟨chapters, chapters.length, countWords content, getChapterStats chapters⟩

example :
    (splitChapters (jsStr "序言被丢弃\n第一章\n正文甲乙丙丁\n第二章\n戊己庚辛") 3 false).map
      Chapter.number = [1, 2] := by decide
example :
    (splitChapters (jsStr "第一章\n第二章\n正文甲乙丙丁") 3 true).map
      Chapter.title = [jsStr "第二章"] := by decide

/-! ## Statistical completeness checker (part_005) -/

/-- The class `[\\d.]`. -/
def isDigitOrDot (c : Char) : Bool := isAsciiDigit c || c = '.'

/-- JS `parseFloat` applied to a run drawn from `[\\d.]`: integer part,
optional dot, fractional part; junk after that prefix is ignored; `none`
models `NaN` (a run with no digit around the first dot).  The value is
returned exactly as a scaled decimal `(mantissa, scale)`, denoting
`mantissa / 10 ^ scale` (the JS float is the nearest double to this value;
on the magnitudes this program handles the subsequent scale-and-round
agrees with the exact computation). -/
def parseFloatRun (run : List Char) : Option (Nat × Nat) :=
  let ip := run.takeWhile isAsciiDigit
  let r2 := run.drop ip.length
  match r2 with
  | '.' :: r3 =>
    let fp := r3.takeWhile isAsciiDigit
    if ip = [] && fp = [] then none
    else some (digitsVal ip * 10 ^ fp.length + digitsVal fp, fp.length)
  | _ => if ip = [] then none else some (digitsVal ip, 0)

/-- The multiplier selected by the alternation `(万|千|百万)?` at the
position after the numeric run and any white space (ordered alternation:
`万` and `千` are single characters, `百万` is tried last). -/
def wordCountUnit (l : List Char) : Nat :=
  match l with
  | '万' :: _ => 10000
  | '千' :: _ => 1000
  | '百' :: '万' :: _ => 1000000
  | _ => 1

/-- `Math.round(v * unit)` for `v = mantissa / 10 ^ scale`: JS rounds half
toward plus infinity, so this is `⌊v * unit + 1/2⌋`, computed in integers
as `(2 * mantissa * unit + 10 ^ scale) / (2 * 10 ^ scale)`. -/
def jsRoundScaled (mantissa unit scale : Nat) : Nat :=
  (2 * mantissa * unit + 10 ^ scale) / (2 * 10 ^ scale)

/-- Search step for the leftmost match of `([\\d.]+)\\s*(万|千|百万)?`:
at the first character of class `[\\d.]` the greedy run is taken and the
optional unit is read after any white space; `none` models the NaN
produced when `parseFloat` fails on the run. -/
def parseWordCountGo : List Char → Option Int
  | [] => some 0
  | c :: rest =>
    if isDigitOrDot c then
      let run := (c :: rest).takeWhile isDigitOrDot
      let after := (c :: rest).dropWhile isDigitOrDot
      match parseFloatRun run with
      | none => none
      | some mv =>
        some (jsRoundScaled mv.1 (wordCountUnit (after.dropWhile isJsWs)) mv.2 : Int)
    else parseWordCountGo rest

/-- `parseWordCount` from part_005: 0 for an empty (falsy) string or when
the regex finds no match, otherwise the parsed number scaled by the unit
(万 = 10^4, 千 = 10^3, 百万 = 10^6) and rounded; `none` models `NaN`. -/
def parseWordCount (wordCountStr : List Char) : Option Int :=
  if wordCountStr = [] then some 0
  else parseWordCountGo wordCountStr

example : parseWordCount (jsStr "100万") = some 1000000 := by decide
example : parseWordCount (jsStr "446.53万") = some 4465300 := by decide
example : parseWordCount (jsStr "2千") = some 2000 := by decide
example : parseWordCount (jsStr "3百万") = some 3000000 := by decide
example : parseWordCount (jsStr "约12字") = some 12 := by decide
example : parseWordCount (jsStr "") = some 0 := by decide
example : parseWordCount (jsStr "未知") = some 0 := by decide

/-- The issue strings pushed by `checkIntegrityByScript`, one constructor
per template literal, carrying the interpolated data. -/
inductive Issue where
  | fileMissing
  | tooShort
  | tooFewChapters (n : Nat)
  | wordInsufficient (expected : Int) (actual : Nat)
  | truncationSuspected
deriving DecidableEq

/-- The statistics block attached to a successful script check (the
presentation-only `fileSizeFormatted` string is omitted). -/
structure ScriptStats where
  fileSize : Nat
  chapterCount : Nat
  totalWords : Nat
  avgWordsPerChapter : Nat
deriving DecidableEq

/-- The `{valid, issues, stats}` record of `checkIntegrityByScript`
(`stats = none` models the empty object of the early returns). -/
structure ScriptResult where
  valid : Bool
  issues : List Issue
  stats : Option ScriptStats
deriving DecidableEq

/-- `checkIntegrityByScript` from part_005, on its pure domain: `fileOk`
is the `existsSync` test, `content` the decoded file, `wordCountStr` the
declared word count of the book metadata.  A missing file or fewer than
1000 characters return immediately with `valid = false`; otherwise the
three independent checks accumulate issues in push order and
`valid = (issues.length === 0 && chapterCount >= 10)`.  `scriptIssues`
is the issue accumulation (one constructor per pushed template string). -/
def scriptIssues (nd : NovelData) (wordCountStr : List Char) : List Issue :=
  (if nd.chapterCount < 10 then [Issue.tooFewChapters nd.chapterCount] else []) ++
  (match parseWordCount wordCountStr with
   | some expected =>
     if 0 < expected && decide (2 * (nd.totalWords : Int) < expected) then
       [Issue.wordInsufficient expected nd.totalWords]
     else []
   | none => []) ++
  (match nd.chapters.getLast? with
   | some last =>
     if decide (last.content ≠ []) &&
         (jsEndsWith (jsTrim last.content) (jsStr "...") ||
          jsEndsWith (jsTrim last.content) (jsStr "未完待续")) then
       [Issue.truncationSuspected]
     else []
   | none => [])

/-- `checkIntegrityByScript` continued: the early returns and the final
verdict over the accumulated issues. -/
def checkIntegrityByScript (fileOk : Bool) (content : List Char)
    (wordCountStr : List Char) : ScriptResult :=
  if fileOk = false then ⟨false, [Issue.fileMissing], none⟩
  else if content.length < 1000 then ⟨false, [Issue.tooShort], none⟩
  else
    ⟨decide (scriptIssues (parseNovelPure content) wordCountStr = []) &&
       decide (10 ≤ (parseNovelPure content).chapterCount),
     scriptIssues (parseNovelPure content) wordCountStr,
     some ⟨content.length, (parseNovelPure content).chapterCount,
       (parseNovelPure content).totalWords,
       (parseNovelPure content).chapterStats.avgWords⟩⟩

/-! ## Fusion verifier (part_005) -/

/-- The `llmCheck` record built by `checkIntegrityByLLM`. -/
structure LLMCheck where
  valid : Bool
  confidence : ℚ
  analysis : List Char
  issues : List (List Char)
deriving DecidableEq

/-- The observable outcomes of one oracle consultation, as distinguished
by `checkIntegrityByLLM`:
  - `answer`: `sendMessage` succeeded and the reply parsed as the JSON
    object `{isComplete, confidence, analysis, issues}`;
  - `malformed`: `sendMessage` succeeded but `JSON.parse` threw, leaving
    only the raw reply text;
  - `failure`: `sendMessage` resolved with `success: false` (HTTP error,
    network error or timeout are all caught inside the GLM client);
  - `thrown`: an exception escaped to the outer catch of
    `checkIntegrityByLLM` (for example a file-read failure). -/
inductive OracleOutcome where
  | answer (isComplete : Bool) (confidence : ℚ) (analysis : List Char)
      (issues : List (List Char))
  | malformed (content : List Char)
  | failure (error : List Char)
  | thrown (message : List Char)
deriving DecidableEq

/-- `checkIntegrityByLLM` from part_005, as a function of the oracle
outcome.  A parsed answer is valid when `isComplete && confidence > 0.7`;
an unparsable reply falls back to the text heuristic with confidence 0.5;
a failed or throwing call yields `valid = false` with confidence 0.  The
function never throws: every failure mode is caught internally. -/
def checkIntegrityByLLM : OracleOutcome → LLMCheck
  | .answer isComplete confidence analysis issues =>
    ⟨isComplete && decide ((7 : ℚ) / 10 < confidence), confidence, analysis, issues⟩
  | .malformed content =>
    ⟨jsIncludes content (jsStr "完整") && !jsIncludes content (jsStr "不完整"),
     1 / 2, content.take 500, []⟩
  | .failure error => ⟨false, 0, jsStr "LLM检查失败", [error]⟩
  | .thrown message =>
    ⟨false, 0, jsStr "LLM检查异常: " ++ message, [message]⟩

/-- The IntegrityVerdict of `checkNovelIntegrity` (`docExists` embeds the
JS field `exists`, which is a Lean keyword). -/
structure Verdict where
  docExists : Bool
  valid : Bool
  scriptCheck : Option ScriptResult
  llmCheck : Option LLMCheck
deriving DecidableEq

/-- `checkNovelIntegrity` from part_005, as a function of the document
presence, the script check result, the `useLLM` flag and the oracle
outcome.  A missing document fails immediately; a passing script check is
final (the oracle result is attached for audit only); a failing script
check is rescued exactly when the oracle check is valid with confidence
above 0.8. -/
def checkNovelIntegrity (docExists : Bool) (scriptCheck : ScriptResult)
    (useLLM : Bool) (oracle : OracleOutcome) : Verdict :=
  if docExists = false then ⟨false, false, none, none⟩
  else if scriptCheck.valid then
    ⟨true, true, some scriptCheck,
     if useLLM then some (checkIntegrityByLLM oracle) else none⟩
  else if useLLM then
    let llmCheck := checkIntegrityByLLM oracle
    if llmCheck.valid && decide ((4 : ℚ) / 5 < llmCheck.confidence) then
      ⟨true, true, some scriptCheck, some llmCheck⟩
    else ⟨true, false, some scriptCheck, some llmCheck⟩
  else ⟨true, false, some scriptCheck, none⟩

/-- The oracle outcomes that count as a failed oracle call (everything
but a parsed answer). -/
def oracleFailed : OracleOutcome → Bool
  | .answer _ _ _ _ => false
  | _ => true

/-! ## Encoding detector (`detectEncoding`, downloader.js) -/

/-- The encoding labels the detector can return (`none` at the call site
means: default to utf-8). -/
inductive Encoding where
  | utf8
  | utf16le
  | utf16be
  | gbk
deriving DecidableEq

/-- One step of the sampling loop, on the pair `(byte1, byte2)` =
`(sample[i], sample[i+1])`: does it raise `gbkScore`? -/
def isGbkPair (p : Nat × Nat) : Bool :=
  (0x81 ≤ p.1 && p.1 ≤ 0xfe && 0x40 ≤ p.2 && p.2 ≤ 0xfe) ||
  (0xa1 ≤ p.1 && p.1 ≤ 0xf7 && 0xa1 ≤ p.2 && p.2 ≤ 0xfe)

/-- Does the pair raise `utf8Score` (only the lead byte is examined, and
only while a following byte exists)? -/
def isUtf8Lead (p : Nat × Nat) : Bool :=
  0xe4 ≤ p.1 && p.1 ≤ 0xe9

/-- `gbkScore` accumulated over the 2-byte windows of the sample (the loop
runs `i` from 0 to `sample.length - 2`). -/
def gbkScore (sample : List Nat) : Nat :=
  ((sample.zip sample.tail).filter isGbkPair).length

/-- `utf8Score` accumulated over the same windows. -/
def utf8Score (sample : List Nat) : Nat :=
  ((sample.zip sample.tail).filter isUtf8Lead).length

/-- `detectEncoding` from downloader.js: BOM checks first (utf-8, then
utf-16le, then utf-16be), else score the first 10000 bytes and return gbk
exactly when `gbkScore > utf8Score * 1.5` (decided exactly as
`2 * gbkScore > 3 * utf8Score`), else null. -/
def detectEncoding (buffer : List Nat) : Option Encoding :=
  if buffer.take 3 = [0xef, 0xbb, 0xbf] then some .utf8
  else if buffer.take 2 = [0xff, 0xfe] then some .utf16le
  else if buffer.take 2 = [0xfe, 0xff] then some .utf16be
  else
    let sample := buffer.take 10000
    if 3 * utf8Score sample < 2 * gbkScore sample then some .gbk
    else none

example : detectEncoding [0xef, 0xbb, 0xbf, 0x41] = some .utf8 := by decide
example : detectEncoding [0xb0, 0xa1, 0xb0, 0xa1] = some .gbk := by decide
example : detectEncoding [] = none := by decide
example : detectEncoding [0xe4, 0xb8, 0x80] = some .gbk := by decide
example : detectEncoding [0x41, 0x42, 0x43] = none := by decide

/-! ## Declarative segmentation (the emit/drop rule in the words of the
specification, for the refinement proof of the segmenter) -/

/-- The record the specification promises for one boundary with its
following block of lines: content is the block joined and trimmed,
`wordCount` is its non-white-space character count, `lineCount` the number
of accumulated lines. -/
def specRecord (num : Int) (title : List Char) (block : List (List Char)) :
    Chapter :=
  ⟨num, title, jsTrim (joinNl block), countWords (jsTrim (joinNl block)),
   block.length⟩

/-- The specified emit/drop rule, amended by the zero-line proviso: a
boundary whose accumulated block contains at least one line is emitted
exactly when `includeEmpty` is set or the joined, trimmed content reaches
`minChapterLength`; a boundary with no accumulated lines is always
dropped. -/
def specEmit (minLen : Nat) (includeEmpty : Bool) (num : Int)
    (title : List Char) (block : List (List Char)) : List Chapter :=
  if block ≠ [] &&
      (includeEmpty || decide (minLen ≤ (jsTrim (joinNl block)).length)) then
    [specRecord num title block]
  else []

/-- Dropping a while-run never lengthens a list (termination measure for
`specSegments`). -/
theorem dropWhile_length_le {α : Type} (p : α → Bool) :
    ∀ l : List α, (l.dropWhile p).length ≤ l.length
  | [] => Nat.le_refl 0
  | a :: l => by
    by_cases h : p a = true
    · rw [List.dropWhile_cons_of_pos h]
      exact Nat.le_succ_of_le (dropWhile_length_le p l)
    · rw [List.dropWhile_cons_of_neg h]

/-- Declarative reading of the segmenter: lines before the first boundary
are discarded; each boundary line opens a segment whose block is the run
of non-boundary lines that follows; the boundary counter rises once per
boundary line and substitutes for an absent or zero extracted number. -/
def specSegments (minLen : Nat) (includeEmpty : Bool) :
    Nat → List (List Char) → List Chapter
  | _, [] => []
  | count, l :: ls =>
    match parseChapterTitle l with
    | none => specSegments minLen includeEmpty count ls
    | some info =>
      let block := ls.takeWhile (fun l2 => (parseChapterTitle l2).isNone)
      let rest := ls.dropWhile (fun l2 => (parseChapterTitle l2).isNone)
      specEmit minLen includeEmpty (chapterNumberOr info.number (count + 1))
          info.title block ++
        specSegments minLen includeEmpty (count + 1) rest
termination_by _c ls => ls.length
decreasing_by
  all_goals simp only [List.length_cons]
  all_goals first
    | exact Nat.lt_succ_of_le (dropWhile_length_le _ ls)
    | exact Nat.lt_succ_of_le (Nat.le_refl _)

/-- The specification-side segmenter: split on newlines and apply the
declarative emit/drop rule from the start of the document. -/
def splitChaptersSpec (content : List Char) (minLen : Nat)
    (includeEmpty : Bool) : List Chapter :=
  specSegments minLen includeEmpty 0 (splitNl content)

/-! ## Refinement: the segmenter loop against the declarative rule -/

/-- The flush step of the loop agrees with the specified emit/drop rule on
an open chapter. -/
theorem flushCur_eq_specEmit (minLen : Nat) (includeEmpty : Bool)
    (num : Int) (title : List Char) (block : List (List Char)) :
    flushCur minLen includeEmpty (some (num, title)) block =
      specEmit minLen includeEmpty num title block := by
  cases block with
  | nil => simp [flushCur, specEmit]
  | cons b bs =>
    simp only [flushCur, specEmit, specRecord, List.length_cons]
    by_cases h : (includeEmpty || decide (minLen ≤ (jsTrim (joinNl (b :: bs))).length)) = true
    · simp [h]
    · simp [h]

/-- Running the loop with an open chapter: the accumulated lines absorb
the following non-boundary run, which is then flushed, and the loop
continues at the next boundary. -/
theorem splitGo_open (minLen : Nat) (includeEmpty : Bool) :
    ∀ (ls : List (List Char)) (num : Int) (title : List Char)
      (acc : List (List Char)) (count : Nat),
      splitGo minLen includeEmpty (some (num, title)) acc count ls =
        flushCur minLen includeEmpty (some (num, title))
            (acc ++ ls.takeWhile (fun l2 => (parseChapterTitle l2).isNone)) ++
          specSegments minLen includeEmpty count
            (ls.dropWhile (fun l2 => (parseChapterTitle l2).isNone))
  | [], num, title, acc, count => by
    simp [splitGo, specSegments]
  | l :: ls, num, title, acc, count => by
    cases h : parseChapterTitle l with
    | some info =>
      have hp : ((fun l2 => (parseChapterTitle l2).isNone) l) = false := by
        simp [h]
      rw [splitGo]
      simp only [h]
      rw [splitGo_open minLen includeEmpty ls]
      rw [List.takeWhile_cons_of_neg (by simp [hp]),
        List.dropWhile_cons_of_neg (by simp [hp])]
      simp only [List.append_nil, List.nil_append]
      rw [specSegments]
      simp only [h]
      rw [flushCur_eq_specEmit, flushCur_eq_specEmit]
    | none =>
      have hp : ((fun l2 => (parseChapterTitle l2).isNone) l) = true := by
        simp [h]
      rw [splitGo]
      simp only [h]
      rw [splitGo_open minLen includeEmpty ls]
      rw [List.takeWhile_cons_of_pos (by simp [hp]),
        List.dropWhile_cons_of_pos (by simp [hp])]
      simp only [List.append_assoc, List.cons_append, List.nil_append]

/-- Running the loop with no open chapter ignores lines up to the first
boundary and agrees with the declarative rule. -/
theorem splitGo_closed (minLen : Nat) (includeEmpty : Bool) :
    ∀ (ls : List (List Char)) (count : Nat),
      splitGo minLen includeEmpty none [] count ls =
        specSegments minLen includeEmpty count ls
  | [], count => by
    rw [specSegments]
    simp [splitGo, flushCur]
  | l :: ls, count => by
    cases h : parseChapterTitle l with
    | some info =>
      rw [splitGo]
      simp only [h]
      rw [splitGo_open minLen includeEmpty ls]
      rw [flushCur_eq_specEmit]
      rw [specSegments]
      simp only [h, flushCur, List.nil_append]
    | none =>
      rw [splitGo]
      simp only [h]
      rw [splitGo_closed minLen includeEmpty ls, specSegments]
      simp only [h]


/-! ## The chapter-number invariant -/

/-- With sign 1, `jsParseIntCore` only produces non-negative values. -/
theorem jsParseIntCore_one_nonneg (body : List Char) (v : Int)
    (hv : jsParseIntCore 1 body = some v) : 0 ≤ v := by
  unfold jsParseIntCore at hv
  split at hv <;> split_ifs at hv <;> simp_all <;> omega

/-- `parseInt` of a string containing no minus sign is non-negative. -/
theorem jsParseInt_nonneg (str : List Char) (h : '-' ∉ str) (v : Int)
    (hv : jsParseInt str = some v) : 0 ≤ v := by
  unfold jsParseInt at hv
  split at hv
  · next r heq =>
    exact absurd ((List.dropWhile_sublist isJsWs).mem
      (heq ▸ List.mem_cons_self _ _)) h
  · exact jsParseIntCore_one_nonneg _ _ hv
  · exact jsParseIntCore_one_nonneg _ _ hv

/-- `chineseToNumber` of a string containing no minus sign is
non-negative. -/
theorem chineseToNumber_nonneg (str : List Char) (h : '-' ∉ str) :
    0 ≤ chineseToNumber str := by
  unfold chineseToNumber
  split_ifs with h1 h2 h3
  · exact le_refl 0
  · exact Int.natCast_nonneg _
  · exact Int.natCast_nonneg _
  · cases hv : jsParseInt str with
    | none => simp
    | some v =>
      simp only
      split_ifs with h4
      · exact jsParseInt_nonneg str h v hv
      · exact le_refl 0

/-- The run captured by the number-extraction search consists of numeral
characters only. -/
theorem findNumFragment_all (run : List Char) :
    ∀ l : List Char, findNumFragment l = some run →
      run.all isCnNumOrDigit = true
  | [] => by simp [findNumFragment]
  | c :: rest => by
    intro h
    unfold findNumFragment at h
    split_ifs at h with hc
    · revert h
      split
      · intro h
        split_ifs at h with hz
        · cases h
          exact List.all_takeWhile
        · exact findNumFragment_all run rest h
      · exact findNumFragment_all run rest
    · exact findNumFragment_all run rest h

/-- Every number extracted from a title line is non-negative. -/
theorem extractedNumber_nonneg (trimmed : List Char) (n : Int)
    (hn : extractedNumber trimmed = some n) : 0 ≤ n := by
  unfold extractedNumber at hn
  revert hn
  split
  · next run hrun =>
    intro hn
    cases hn
    refine chineseToNumber_nonneg run fun hm => ?_
    have := List.all_eq_true.mp (findNumFragment_all run _ hrun) _ hm
    simp [isCnNumOrDigit, isCnNumChar, isAsciiDigit, cnCharVal] at this
  · split
    · intro hn
      cases hn
    · intro hn
      cases hn
      exact Int.natCast_nonneg _

/-- The number recorded at a boundary is at least 1 when the boundary
counter is. -/
theorem chapterNumberOr_ge_one (n : Option Int) (count : Nat)
    (hcount : 1 ≤ count) (hn : ∀ v, n = some v → 0 ≤ v) :
    1 ≤ chapterNumberOr n count := by
  cases n with
  | none =>
    simp only [chapterNumberOr]
    exact_mod_cast hcount
  | some v =>
    have h0 := hn v rfl
    simp only [chapterNumberOr]
    split_ifs with hz
    · exact_mod_cast hcount
    · omega

/-- Every chapter produced by the declarative rule carries a number at
least 1 (the counter starts above 0 and substitutes for null and 0). -/
theorem specSegments_number_ge_one (minLen : Nat) (includeEmpty : Bool) :
    ∀ (fuel : Nat) (ls : List (List Char)), ls.length < fuel →
      ∀ (count : Nat) (ch : Chapter),
        ch ∈ specSegments minLen includeEmpty count ls → 1 ≤ ch.number := by
  intro fuel
  induction fuel with
  | zero => omega
  | succ N ih =>
    intro ls hlen count ch hch
    cases ls with
    | nil =>
      rw [specSegments] at hch
      simp at hch
    | cons l ls =>
      rw [specSegments] at hch
      revert hch
      split
      · intro hch
        exact ih ls (by simpa using Nat.lt_of_succ_lt_succ hlen) count ch hch
      · next info hinfo =>
        intro hch
        have hnum : info.number = extractedNumber (jsTrim l) := by
          unfold parseChapterTitle at hinfo
          split_ifs at hinfo
          cases hinfo
          rfl
        rcases List.mem_append.mp hch with hch | hch
        · revert hch
          unfold specEmit
          split_ifs with hcond
          · intro hch
            cases List.mem_singleton.mp hch
            exact chapterNumberOr_ge_one _ _ (Nat.le_add_left 1 count)
              (fun v hv => extractedNumber_nonneg _ v (hnum ▸ hv))
          · intro hch
            simp at hch
        · refine ih _ ?_ (count + 1) ch hch
          have h1 := dropWhile_length_le
            (fun l2 => (parseChapterTitle l2).isNone) ls
          have h2 : ls.length < N := by simpa using Nat.lt_of_succ_lt_succ hlen
          omega

/-! ## Claims -/

/-- C1.  Monotonic trust: for every existing document, if the statistical
check has `valid = true` the fusion verdict has `valid = true` for every
possible oracle outcome (including a complete refusal with full
confidence); the oracle result is at most attached for audit. -/
theorem c1_monotonic_trust (scriptCheck : ScriptResult) (useLLM : Bool)
    (oracle : OracleOutcome) (h : scriptCheck.valid = true) :
    (checkNovelIntegrity true scriptCheck useLLM oracle).valid = true := by
  simp [checkNovelIntegrity, h]

theorem c1_monotonic_trust_witness :
    (⟨true, [], none⟩ : ScriptResult).valid = true ∧
    (checkNovelIntegrity true ⟨true, [], none⟩ true
        (.answer false 1 (jsStr "看起来不完整") [])).valid = true :=
  ⟨rfl, c1_monotonic_trust _ _ _ rfl⟩

/-- C2.  Rescue threshold: on an existing document whose statistical check
failed, a parsed oracle answer decides the final verdict as
`isComplete && confidence > 0.8`. -/
theorem c2_rescue_threshold (scriptCheck : ScriptResult) (isComplete : Bool)
    (confidence : ℚ) (analysis : List Char) (issues : List (List Char))
    (h : scriptCheck.valid = false) :
    (checkNovelIntegrity true scriptCheck true
        (.answer isComplete confidence analysis issues)).valid =
      (isComplete && decide ((4 : ℚ) / 5 < confidence)) := by
  by_cases h45 : (4 : ℚ) / 5 < confidence
  · have h710 : (7 : ℚ) / 10 < confidence := lt_trans (by norm_num) h45
    cases isComplete <;>
      simp [checkNovelIntegrity, checkIntegrityByLLM, h, h45, h710]
  · simp [checkNovelIntegrity, checkIntegrityByLLM, h, h45]

theorem c2_rescue_threshold_witness :
    (⟨false, [Issue.tooShort], none⟩ : ScriptResult).valid = false ∧
    (checkNovelIntegrity true ⟨false, [Issue.tooShort], none⟩ true
        (.answer true (81 / 100) [] [])).valid = true ∧
    (checkNovelIntegrity true ⟨false, [Issue.tooShort], none⟩ true
        (.answer true (79 / 100) [] [])).valid = false := by
  refine ⟨rfl, ?_, ?_⟩
  · rw [c2_rescue_threshold _ _ _ _ _ rfl]
    norm_num
  · rw [c2_rescue_threshold _ _ _ _ _ rfl]
    norm_num

/-- C3, counterexample.  The claim asserts `llmCheck = null` whenever the
oracle call fails; in the code a transport failure is caught inside
`checkIntegrityByLLM`, which returns a failure record, and the verdict
attaches that record, so `llmCheck` is not null. -/
theorem c3_graceful_degradation_counterexample :
    (checkNovelIntegrity true ⟨false, [Issue.tooShort], none⟩ true
        (.failure (jsStr "timeout of 60000ms exceeded"))).llmCheck ≠ none := by
  simp [checkNovelIntegrity, checkIntegrityByLLM]

/-- C3, amended.  On every failed oracle outcome the verifier still never
throws (it is a total function of the outcome) and the final `valid`
equals the statistical `valid`; but `llmCheck` is the caught failure
record produced by `checkIntegrityByLLM`, not null. -/
theorem c3_graceful_degradation_amended (scriptCheck : ScriptResult)
    (o : OracleOutcome) (h : oracleFailed o = true) :
    (checkNovelIntegrity true scriptCheck true o).valid = scriptCheck.valid ∧
    (checkNovelIntegrity true scriptCheck true o).llmCheck =
      some (checkIntegrityByLLM o) := by
  cases o with
  | answer isComplete confidence analysis issues => simp [oracleFailed] at h
  | malformed content =>
    cases hsc : scriptCheck.valid
    · simp [checkNovelIntegrity, checkIntegrityByLLM, hsc]
      norm_num
    · simp [checkNovelIntegrity, checkIntegrityByLLM, hsc]
  | failure error =>
    cases hsc : scriptCheck.valid <;>
      simp [checkNovelIntegrity, checkIntegrityByLLM, hsc]
  | thrown message =>
    cases hsc : scriptCheck.valid <;>
      simp [checkNovelIntegrity, checkIntegrityByLLM, hsc]

theorem c3_graceful_degradation_amended_witness :
    oracleFailed (.failure (jsStr "ECONNRESET")) = true ∧
    ((checkNovelIntegrity true ⟨false, [Issue.tooShort], none⟩ true
        (.failure (jsStr "ECONNRESET"))).valid =
      (⟨false, [Issue.tooShort], none⟩ : ScriptResult).valid ∧
     (checkNovelIntegrity true ⟨false, [Issue.tooShort], none⟩ true
        (.failure (jsStr "ECONNRESET"))).llmCheck =
      some (checkIntegrityByLLM (.failure (jsStr "ECONNRESET")))) :=
  ⟨rfl, c3_graceful_degradation_amended _ _ rfl⟩

/-- C5, counterexample.  The claim gives `parse("二十三") == 23` and
`parse("一百零八") == 108`; the right-to-left scan of the code multiplies
the digit standing after a unit character, giving 32 and 101. -/
theorem c5_numeral_parser_counterexample :
    ¬(chineseToNumber (jsStr "二十三") = 23 ∧
      chineseToNumber (jsStr "一百零八") = 108) := by decide

/-- C5, amended.  The test values the parser actually returns: 10, 32,
101, 3 and 0. -/
theorem c5_numeral_parser_amended :
    chineseToNumber (jsStr "十") = 10 ∧
    chineseToNumber (jsStr "二十三") = 32 ∧
    chineseToNumber (jsStr "一百零八") = 101 ∧
    chineseToNumber (jsStr "3") = 3 ∧
    chineseToNumber (jsStr "") = 0 := by decide

/-- C8.  For every chapter list (including the empty one) the aggregate
statistics satisfy `totalWords = Σ wordCount` and the chapter total equals
the list length. -/
theorem c8_stats_invariant (chapters : List Chapter) :
    (getChapterStats chapters).totalWords =
      (chapters.map Chapter.wordCount).sum ∧
    (getChapterStats chapters).total = chapters.length := by
  cases chapters with
  | nil => simp [getChapterStats]
  | cons c cs =>
    refine ⟨?_, rfl⟩
    simp only [getChapterStats]
    rw [← List.sum_eq_foldl]

/-- C9.  A line whose trimmed form exceeds 60 characters is never a
boundary, and consequently yields no title record. -/
theorem c9_boundary_length_cap (line : List Char)
    (h : 60 < (jsTrim line).length) :
    isChapterTitle line = false ∧ parseChapterTitle line = none := by
  have h0 : ¬((jsTrim line).length = 0) := by omega
  have ht : isChapterTitle line = false := by
    simp [isChapterTitle, h0, h]
  exact ⟨ht, by simp [parseChapterTitle, ht]⟩

theorem c9_boundary_length_cap_witness :
    60 < (jsTrim (List.replicate 61 'a')).length ∧
    isChapterTitle (List.replicate 61 'a') = false ∧
    parseChapterTitle (List.replicate 61 'a') = none :=
  ⟨by decide, (c9_boundary_length_cap _ (by decide)).1,
   (c9_boundary_length_cap _ (by decide)).2⟩

/-- C6, counterexample.  The claim says an open accumulator is emitted at
a boundary whenever `includeEmpty` is set; but when the first boundary is
immediately followed by another boundary the accumulator holds zero lines
and is dropped even with `includeEmpty = true`: only the second chapter
appears. -/
theorem c6_emit_rule_counterexample :
    (splitChapters (jsStr "第一章甲\n第二章乙\n" ++ List.replicate 100 'a')
        100 true).map Chapter.title = [jsStr "第二章乙"] ∧
    ¬ ∃ ch ∈ splitChapters (jsStr "第一章甲\n第二章乙\n" ++
        List.replicate 100 'a') 100 true,
      ch.title = jsStr "第一章甲" := by decide

/-- C6, amended.  The segmenter equals the declarative emit/drop rule
once amended with the zero-line proviso: at each boundary (and at end of
document) an open accumulator with at least one accumulated line is
emitted iff `includeEmpty` is set or the joined and trimmed content
reaches `minChapterLength`, and an accumulator with no accumulated lines
is always dropped; lines before the first boundary appear in no record;
an emitted record has `wordCount` equal to the non-white-space character
count of its content and `lineCount` equal to the number of accumulated
lines. -/
theorem c6_segmenter_emit_rule_amended (content : List Char) (minLen : Nat)
    (includeEmpty : Bool) :
    splitChapters content minLen includeEmpty =
      splitChaptersSpec content minLen includeEmpty :=
  splitGo_closed minLen includeEmpty (splitNl content) 0

/-- C7.  The encoding detector is total with range
`{utf-8, utf-16le, utf-16be, gbk, null}` (the type of `detectEncoding`);
a buffer starting with EF BB BF short-circuits to utf-8 before any
scoring; with no recognised BOM the verdict is gbk exactly when
`gbkScore > 1.5 * utf8Score` over the 2-byte windows of the first 10000
bytes, and null otherwise. -/
theorem c7_encoding_detector (buffer : List Nat) :
    (buffer.take 3 = [0xef, 0xbb, 0xbf] → detectEncoding buffer = some .utf8) ∧
    (buffer.take 3 ≠ [0xef, 0xbb, 0xbf] → buffer.take 2 ≠ [0xff, 0xfe] →
      buffer.take 2 ≠ [0xfe, 0xff] →
      ((detectEncoding buffer = some .gbk ↔
          3 * utf8Score (buffer.take 10000) <
            2 * gbkScore (buffer.take 10000)) ∧
       (detectEncoding buffer = none ↔
          ¬ 3 * utf8Score (buffer.take 10000) <
            2 * gbkScore (buffer.take 10000)))) := by
  constructor
  · intro h
    simp [detectEncoding, h]
  · intro h1 h2 h3
    constructor <;> simp [detectEncoding, h1, h2, h3]

theorem c7_encoding_detector_witness :
    ([0xb0, 0xa1, 0xb0, 0xa1] : List Nat).take 3 ≠ [0xef, 0xbb, 0xbf] ∧
    detectEncoding [0xb0, 0xa1, 0xb0, 0xa1] = some .gbk :=
  ⟨by decide,
   ((c7_encoding_detector [0xb0, 0xa1, 0xb0, 0xa1]).2 (by decide) (by decide)
      (by decide)).1.mpr (by decide)⟩

/-- C10.  Every chapter record the segmenter emits has a number at least
1: an absent, unparsable-to-nonzero or zero extracted number (such as a
第零章 title) is replaced by the synthetic boundary counter, which starts
at 1. -/
theorem c10_chapter_number_ge_one (content : List Char) (minLen : Nat)
    (includeEmpty : Bool) (ch : Chapter)
    (h : ch ∈ splitChapters content minLen includeEmpty) : 1 ≤ ch.number := by
  rw [splitChapters, splitGo_closed] at h
  exact specSegments_number_ge_one minLen includeEmpty
    ((splitNl content).length + 1) _ (Nat.lt_succ_self _) 0 ch h

theorem c10_chapter_number_ge_one_witness :
    (⟨1, jsStr "第零章", jsStr "abcd", 4, 1⟩ : Chapter) ∈
      splitChapters (jsStr "第零章\nabcd") 1 false ∧
    (1 : Int) ≤ (⟨1, jsStr "第零章", jsStr "abcd", 4, 1⟩ : Chapter).number :=
  ⟨by decide,
   c10_chapter_number_ge_one (jsStr "第零章\nabcd") 1 false
     ⟨1, jsStr "第零章", jsStr "abcd", 4, 1⟩ (by decide)⟩

/-- C4.  The statistical checker postcondition: a readable file below
1000 characters fails immediately with the single length issue; from 1000
characters on, fewer than 10 chapters adds the too-few-chapters issue, a
declared word count parsing positive with
`totalWords < 0.5 * declaredWordCount` adds the insufficient-word-count
issue (the multiplier table gives `parse("100万") = 1000000`), a last
chapter whose trimmed content ends in "..." or 未完待续 adds the
truncation issue, and `valid = (issues = [] && chapterCount >= 10)`. -/
theorem c4_script_checker_postcondition (content : List Char)
    (wordCountStr : List Char) :
    (content.length < 1000 →
      checkIntegrityByScript true content wordCountStr =
        ⟨false, [Issue.tooShort], none⟩) ∧
    (1000 ≤ content.length →
      ((parseNovelPure content).chapterCount < 10 →
        Issue.tooFewChapters (parseNovelPure content).chapterCount ∈
          (checkIntegrityByScript true content wordCountStr).issues) ∧
      (∀ e : Int, parseWordCount wordCountStr = some e → 0 < e →
        2 * ((parseNovelPure content).totalWords : Int) < e →
        Issue.wordInsufficient e (parseNovelPure content).totalWords ∈
          (checkIntegrityByScript true content wordCountStr).issues) ∧
      (∀ ch : Chapter,
        (parseNovelPure content).chapters.getLast? = some ch →
        (jsEndsWith (jsTrim ch.content) (jsStr "...") = true ∨
         jsEndsWith (jsTrim ch.content) (jsStr "未完待续") = true) →
        Issue.truncationSuspected ∈
          (checkIntegrityByScript true content wordCountStr).issues) ∧
      (checkIntegrityByScript true content wordCountStr).valid =
        (decide
            ((checkIntegrityByScript true content wordCountStr).issues = []) &&
         decide (10 ≤ (parseNovelPure content).chapterCount))) ∧
    parseWordCount (jsStr "100万") = some 1000000 := by
  refine ⟨?_, ?_, by decide⟩
  · intro hlt
    simp [checkIntegrityByScript, hlt]
  · intro hge
    have hlt : ¬(content.length < 1000) := by omega
    have hiss : (checkIntegrityByScript true content wordCountStr).issues =
        scriptIssues (parseNovelPure content) wordCountStr := by
      simp [checkIntegrityByScript, hlt]
    refine ⟨?_, ?_, ?_, ?_⟩
    · intro hb
      rw [hiss]
      unfold scriptIssues
      rw [if_pos hb]
      simp
    · intro e he hpos hcmp
      rw [hiss]
      unfold scriptIssues
      rw [he]
      have hcond : (decide (0 < e) &&
          decide (2 * (((parseNovelPure content).totalWords : Nat) : Int) < e)) =
          true := by
        simp [hpos, hcmp]
      simp [hcond]
    · intro ch hlast hends
      have hne : ch.content ≠ [] := by
        intro h0
        rcases hends with hx | hx <;> (rw [h0] at hx; revert hx; decide)
      rw [hiss]
      unfold scriptIssues
      rw [hlast]
      have hcond : (decide (ch.content ≠ []) &&
          (jsEndsWith (jsTrim ch.content) (jsStr "...") ||
           jsEndsWith (jsTrim ch.content) (jsStr "未完待续"))) = true := by
        rcases hends with hx | hx <;> simp [hne, hx]
      simp [hcond]
      exact Or.inr ⟨hne, hends⟩
    · simp [checkIntegrityByScript, hlt]

set_option maxRecDepth 200000 in
theorem c4_script_checker_postcondition_witness :
    1000 ≤ (jsStr "第一章\n" ++ List.replicate 1000 'a').length ∧
    Issue.tooFewChapters
        (parseNovelPure (jsStr "第一章\n" ++
          List.replicate 1000 'a')).chapterCount ∈
      (checkIntegrityByScript true
        (jsStr "第一章\n" ++ List.replicate 1000 'a') (jsStr "100万")).issues ∧
    Issue.wordInsufficient 1000000
        (parseNovelPure (jsStr "第一章\n" ++
          List.replicate 1000 'a')).totalWords ∈
      (checkIntegrityByScript true
        (jsStr "第一章\n" ++ List.replicate 1000 'a') (jsStr "100万")).issues := by
  refine ⟨by decide, ?_, ?_⟩
  · exact ((c4_script_checker_postcondition
      (jsStr "第一章\n" ++ List.replicate 1000 'a') (jsStr "100万")).2.1
        (by decide)).1 (by decide)
  · exact ((c4_script_checker_postcondition
      (jsStr "第一章\n" ++ List.replicate 1000 'a') (jsStr "100万")).2.1
        (by decide)).2.1 1000000 (by decide) (by decide) (by decide)
